import Mathlib

/-!
# mmcctrld: daemon lifecycle and control loop

A shallow embedding of `src/mmcctrld.c`.  The program is effectful, so every
system call, library call and mailbox call that `main` performs is recorded as
an `Event` in a trace, in program order.  Everything the environment decides
(return values of `fork`, `setsid`, `chdir`, the mailbox calls, `execl`, and
the moments at which `SIGTERM` is delivered) is read from an `Env` record.

The `while (!terminate)` loop may run for ever, so `pollLoop` takes a `fuel`
argument that bounds the number of loop bodies that are simulated; a run that
is still inside the loop when the fuel is used up has outcome `running`.
-/

namespace Mmcctrld

/-! ## Data model -/

/-- Modelled from the spec: the type `mb_fpga_ctrl_t` is declared in
`mmcmb/mmcmb.h`, which is not part of the sources at hand.  The only field the
daemon reads is `req_shutdown` (`requestShutdown` in the spec); the remaining
fields are reserved and immaterial here. -/
structure mb_fpga_ctrl_t where
  req_shutdown : Bool
deriving DecidableEq, Repr

/-- Modelled from the spec: the type `mb_fpga_status_t` is declared in
`mmcmb/mmcmb.h`, which is not part of the sources at hand.  The only field the
daemon sets is `app_startup_finished` (`applicationStartupFinished` in the
spec); a designated initialiser zeroes the others. -/
structure mb_fpga_status_t where
  app_startup_finished : Bool
deriving DecidableEq, Repr

/-- The two syslog priorities used by the daemon. -/
inductive Priority where
  | LOG_ERR
  | LOG_NOTICE
deriving DecidableEq, Repr

/-- An argument of a syslog format string: a C string, or `strerror(errno)`. -/
inductive SyslogArg where
  | str (s : String)
  | strerror (errno : Int)
deriving DecidableEq, Repr

/-- The signals whose disposition `daemonize` changes. -/
inductive Signal where
  | SIGCHLD
  | SIGHUP
  | SIGTERM
deriving DecidableEq, Repr

/-- The dispositions installed by `daemonize`. -/
inductive Handler where
  | SIG_IGN
  | sigterm_handler
deriving DecidableEq, Repr

/-- One observable action of the process.  Calls whose result steers the
control flow carry that result.  `handle_fpga_ctrl` marks the entry into the
dispatch function, which is a function of this program and not a system
call. -/
inductive Event where
  | fprintf_stderr (msg : String)
  | fork (ret : Int)
  | setsid (ret : Int)
  | sigaction (s : Signal) (h : Handler)
  | umask (mask : Nat)
  | chdir (path : String) (ret : Int)
  | perror (s : String)
  | close (fd : Int)
  | openlog (ident : String)
  | syslog (pri : Priority) (fmt : String) (args : List SyslogArg)
  | closelog
  | mb_get_eeprom_path (ret : Option String)
  | mb_check_magic (ret : Bool)
  | mb_set_fpga_status (stat : mb_fpga_status_t) (ret : Bool)
  | mb_get_fpga_ctrl (ret : Option mb_fpga_ctrl_t)
  | handle_fpga_ctrl (ctrl : mb_fpga_ctrl_t)
  | execl (path : String) (args : List String)
  | nanosleep (tv_sec : Nat) (tv_nsec : Nat)
deriving DecidableEq, Repr

/-- The three stretches of a poll cycle during which `SIGTERM` may arrive:
while the control register is read, while the snapshot is dispatched (before
`execl`), and while the process sleeps. -/
inductive Window where
  | read
  | dispatch
  | sleep
deriving DecidableEq, Repr

/-- Everything the environment decides during one run of the process. -/
structure Env where
  /-- Result of `geteuid()`. -/
  geteuid : Nat
  /-- Result of the first `fork()` as seen by this process. -/
  fork_first : Int
  /-- Result of `setsid()`. -/
  setsid : Int
  /-- Result of the second `fork()` as seen by this process. -/
  fork_second : Int
  /-- Result of `chdir("/")`. -/
  chdir : Int
  /-- Result of `sysconf(_SC_OPEN_MAX)`. -/
  open_max : Int
  /-- Result of `mb_get_eeprom_path()`; `none` is the NULL pointer. -/
  mb_get_eeprom_path : Option String
  /-- Result of `mb_check_magic()`. -/
  mb_check_magic : Bool
  /-- Result of `mb_set_fpga_status(&stat)`. -/
  mb_set_fpga_status : Bool
  /-- Result of the call of `mb_get_fpga_ctrl` in poll cycle `k` (counted from
  0); `none` is the return value `false`, `some c` is `true` with `c` stored
  through the pointer. -/
  mb_get_fpga_ctrl : Nat → Option mb_fpga_ctrl_t
  /-- Result of `execl` if it is called in poll cycle `k`: `none` when the
  process image is replaced (the call does not return), `some errno` when the
  call returns. -/
  execl : Nat → Option Int
  /-- Whether `SIGTERM` is delivered after the handler is installed and before
  the loop condition is evaluated for the first time. -/
  sigterm_startup : Bool
  /-- Whether `SIGTERM` is delivered in the given window of poll cycle `k`. -/
  sigterm : Nat → Window → Bool

/-- How a simulated run of the process stands at its end. -/
inductive Outcome where
  /-- The process ended with this exit status (`return` from `main`, or
  `exit`). -/
  | exited (status : Nat)
  /-- The process image was replaced by `execl`. -/
  | replaced
  /-- The fuel ran out while the process was still polling. -/
  | running
deriving DecidableEq, Repr

/-- The trace of a simulated run and its outcome. -/
structure Run where
  trace : List Event
  outcome : Outcome
deriving DecidableEq, Repr

/-- How the simulation of the `while` loop ended. -/
inductive LoopExit where
  /-- The loop was left (condition false, or `break`): control is at the label
  `finish`. -/
  | finish
  /-- The process image was replaced by `execl`. -/
  | replaced
  /-- The fuel ran out inside the loop. -/
  | running
deriving DecidableEq, Repr

/-! ## Constants -/

/-- Value of `#define POLL_INTERVAL_MS 250`. -/
def POLL_INTERVAL_MS : Nat := 250

/-- The field `ts_poll.tv_nsec`, that is `POLL_INTERVAL_MS * 1e6`; the product
`250 * 1e6` is an integer that a double represents exactly. -/
def ts_poll_tv_nsec : Nat := POLL_INTERVAL_MS * 1000000

/-- Value of `EXIT_SUCCESS`. -/
def EXIT_SUCCESS : Nat := 0

/-- Value of `EXIT_FAILURE`. -/
def EXIT_FAILURE : Nat := 1

/-! ## The program -/

/-- The calls `close(n)`, `close(n-1)`, ..., `close(0)`. -/
def closeDown : Nat → List Event
  | 0 => [Event.close 0]
  | n + 1 => Event.close ((n : Int) + 1) :: closeDown n

/-- The loop `for (int x = sysconf(_SC_OPEN_MAX); x >= 0; x--) close(x);`. -/
def closeAll (open_max : Int) : List Event :=
  if open_max < 0 then [] else closeDown open_max.toNat

/-- The function `daemonize`: its trace, and `some status` when it ends the
process through `exit(status)`, `none` when it returns. -/
def daemonize (env : Env) : List Event × Option Nat :=
  if env.fork_first < 0 then
    ([Event.fork env.fork_first], some EXIT_FAILURE)
  else if env.fork_first > 0 then
    ([Event.fork env.fork_first], some EXIT_SUCCESS)
  else if env.setsid < 0 then
    ([Event.fork env.fork_first, Event.setsid env.setsid], some EXIT_FAILURE)
  else
    let upToFork : List Event :=
      [Event.fork env.fork_first, Event.setsid env.setsid,
       Event.sigaction Signal.SIGCHLD Handler.SIG_IGN,
       Event.sigaction Signal.SIGHUP Handler.SIG_IGN,
       Event.sigaction Signal.SIGTERM Handler.sigterm_handler,
       Event.fork env.fork_second]
    if env.fork_second < 0 then
      (upToFork, some EXIT_FAILURE)
    else if env.fork_second > 0 then
      (upToFork, some EXIT_SUCCESS)
    else if env.chdir < 0 then
      (upToFork ++ [Event.umask 0, Event.chdir "/" env.chdir, Event.perror "chdir"],
        some EXIT_FAILURE)
    else
      (upToFork ++ [Event.umask 0, Event.chdir "/" env.chdir] ++ closeAll env.open_max
        ++ [Event.openlog "mmcctrld"], none)

/-- The function `handle_fpga_ctrl`, given what `execl` would do and the value
of the global `terminate` on entry: its trace, and `none` when the process
image is replaced, `some t` when the function returns with `terminate = t`. -/
def handle_fpga_ctrl (execl_ret : Option Int) (ctrl : mb_fpga_ctrl_t) (terminate : Bool) :
    List Event × Option Bool :=
  if !ctrl.req_shutdown then
    ([], some terminate)
  else
    match execl_ret with
    | none =>
      ([Event.syslog Priority.LOG_NOTICE "Shutdown requested by MMC" [],
        Event.execl "/sbin/shutdown" ["shutdown", "-h", "now"]], none)
    | some errno =>
      ([Event.syslog Priority.LOG_NOTICE "Shutdown requested by MMC" [],
        Event.execl "/sbin/shutdown" ["shutdown", "-h", "now"],
        Event.syslog Priority.LOG_ERR "Could not execute shutdown command: %s"
          [SyslogArg.strerror errno]], some true)

/-- The loop `while (!terminate) ...` of `main`, entered at poll cycle `k`
with the global `terminate` holding the given value.  `fuel` bounds the number
of loop bodies simulated. -/
def pollLoop (env : Env) : Nat → Nat → Bool → List Event × LoopExit
  | fuel, k, terminate =>
    if terminate then
      ([], LoopExit.finish)
    else
      match fuel with
      | 0 => ([], LoopExit.running)
      | fuel + 1 =>
        match env.mb_get_fpga_ctrl k with
        | none =>
          ([Event.mb_get_fpga_ctrl none,
            Event.syslog Priority.LOG_ERR "Could not read FPGA_CTRL" []], LoopExit.finish)
        | some ctrl =>
          let t1 := terminate || env.sigterm k Window.read
          let t2 := t1 || env.sigterm k Window.dispatch
          match handle_fpga_ctrl (env.execl k) ctrl t2 with
          | (ev, none) =>
            (Event.mb_get_fpga_ctrl (some ctrl) :: Event.handle_fpga_ctrl ctrl :: ev,
              LoopExit.replaced)
          | (ev, some t3) =>
            let t4 := t3 || env.sigterm k Window.sleep
            let rest := pollLoop env fuel (k + 1) t4
            (Event.mb_get_fpga_ctrl (some ctrl) :: Event.handle_fpga_ctrl ctrl :: ev
              ++ Event.nanosleep 0 ts_poll_tv_nsec :: rest.1, rest.2)

/-- The code at the label `finish`: log "Terminated", close the log, return
`EXIT_SUCCESS`. -/
def finish (before : List Event) : Run :=
  ⟨before ++ [Event.syslog Priority.LOG_NOTICE "Terminated" [], Event.closelog],
    Outcome.exited EXIT_SUCCESS⟩

/-- The function `main`. -/
def main (env : Env) (fuel : Nat) : Run :=
  if env.geteuid ≠ 0 then
    ⟨[Event.fprintf_stderr "mmcctrld: needs to be launched with root privileges\r\n"],
      Outcome.exited 1⟩
  else
    match daemonize env with
    | (d, some status) => ⟨d, Outcome.exited status⟩
    | (d, none) =>
      match env.mb_get_eeprom_path with
      | none =>
        finish (d ++ [Event.mb_get_eeprom_path none,
          Event.syslog Priority.LOG_ERR "Could not open mailbox" []])
      | some eeprom =>
        let opened : List Event :=
          d ++ [Event.mb_get_eeprom_path (some eeprom),
            Event.syslog Priority.LOG_NOTICE "Opened mailbox at %s" [SyslogArg.str eeprom]]
        if !env.mb_check_magic then
          finish (opened ++ [Event.mb_check_magic false,
            Event.syslog Priority.LOG_ERR "Mailbox not available" []])
        else
          let stat : mb_fpga_status_t := { app_startup_finished := true }
          if !env.mb_set_fpga_status then
            finish (opened ++ [Event.mb_check_magic true,
              Event.mb_set_fpga_status stat false,
              Event.syslog Priority.LOG_ERR "Could not set FPGA status" []])
          else
            let started : List Event :=
              opened ++ [Event.mb_check_magic true, Event.mb_set_fpga_status stat true,
                Event.syslog Priority.LOG_NOTICE "Started" []]
            match pollLoop env fuel 0 env.sigterm_startup with
            | (l, LoopExit.finish) => finish (started ++ l)
            | (l, LoopExit.replaced) => ⟨started ++ l, Outcome.replaced⟩
            | (l, LoopExit.running) => ⟨started ++ l, Outcome.running⟩

/-! ## Observers on traces -/

/-- The log entry written at the label `finish`. -/
def terminatedEntry : Event := Event.syslog Priority.LOG_NOTICE "Terminated" []

/-- The call that launches the shutdown command. -/
def shutdownCall : Event := Event.execl "/sbin/shutdown" ["shutdown", "-h", "now"]

/-- The notice logged right before the shutdown command is launched. -/
def shutdownNotice : Event := Event.syslog Priority.LOG_NOTICE "Shutdown requested by MMC" []

/-- The call `nanosleep(&ts_poll, NULL)`: 0 s and 250 000 000 ns. -/
def pollSleep : Event := Event.nanosleep 0 250000000

/-- Is the event an invocation of `execl`? -/
def Event.isExecl : Event → Bool
  | .execl _ _ => true
  | _ => false

/-- Is the event a call of `mb_get_fpga_ctrl` (a control read)? -/
def Event.isCtrlRead : Event → Bool
  | .mb_get_fpga_ctrl _ => true
  | _ => false

/-- Is the event an entry into `handle_fpga_ctrl` (a dispatch)? -/
def Event.isDispatch : Event → Bool
  | .handle_fpga_ctrl _ => true
  | _ => false

/-- Is the event a call of `mb_set_fpga_status` (a status write)? -/
def Event.isStatusWrite : Event → Bool
  | .mb_set_fpga_status _ _ => true
  | _ => false

/-- Is the event a call of one of the four mailbox functions? -/
def Event.isMailbox : Event → Bool
  | .mb_get_eeprom_path _ => true
  | .mb_check_magic _ => true
  | .mb_set_fpga_status _ _ => true
  | .mb_get_fpga_ctrl _ => true
  | _ => false

/-- Is the event a log entry (a call of `syslog`)? -/
def Event.isSyslog : Event → Bool
  | .syslog _ _ _ => true
  | _ => false

/-- Is the event a call of `nanosleep`? -/
def Event.isSleep : Event → Bool
  | .nanosleep _ _ => true
  | _ => false

/-- Is the event the log entry "Terminated"? -/
def Event.isTerminated (e : Event) : Bool :=
  decide (e = terminatedEntry)

/-- Is the event one of those `daemonize` performs? -/
def Event.isSetup : Event → Bool
  | .fork _ => true
  | .setsid _ => true
  | .sigaction _ _ => true
  | .umask _ => true
  | .chdir _ _ => true
  | .perror _ => true
  | .close _ => true
  | .openlog _ => true
  | _ => false

/-- Is the event one of those the body of the poll loop performs? -/
def Event.isLoop : Event → Bool
  | .mb_get_fpga_ctrl _ => true
  | .handle_fpga_ctrl _ => true
  | .execl _ _ => true
  | .nanosleep _ _ => true
  | .syslog _ fmt _ =>
    decide (fmt = "Shutdown requested by MMC" ∨ fmt = "Could not execute shutdown command: %s"
      ∨ fmt = "Could not read FPGA_CTRL")
  | _ => false

/-- Is the event one of those a poll cycle without shutdown request performs:
a successful control read without request, its dispatch, or the sleep? -/
def Event.isQuiet : Event → Bool
  | .mb_get_fpga_ctrl (some c) => !c.req_shutdown
  | .handle_fpga_ctrl c => !c.req_shutdown
  | .nanosleep _ _ => true
  | _ => false

/-- Is the event part of the poll loop proper: a control read, a dispatch or
an invocation of `execl`? -/
def Event.isPoll (e : Event) : Bool :=
  e.isCtrlRead || e.isDispatch || e.isExecl

/-! ## Conditions on the environment -/

/-- The process is privileged and `daemonize` returns: both forks return 0 to
this process, `setsid` and `chdir` do not fail. -/
def Daemonized (env : Env) : Prop :=
  env.geteuid = 0 ∧ env.fork_first = 0 ∧ 0 ≤ env.setsid ∧ env.fork_second = 0 ∧ 0 ≤ env.chdir

/-- Startup succeeds: the process is daemonized, `mb_get_eeprom_path` returns
the path `eeprom`, `mb_check_magic` returns true and `mb_set_fpga_status`
returns true. -/
def StartupSucceeds (env : Env) (eeprom : String) : Prop :=
  Daemonized env ∧ env.mb_get_eeprom_path = some eeprom ∧ env.mb_check_magic = true
    ∧ env.mb_set_fpga_status = true

/-- The poll cycles `0, ..., k-1` are completed and the loop condition is
passed for cycle `k`: no `SIGTERM` arrives before that, and each of those
cycles reads a snapshot without shutdown request. -/
def ReachesCycle (env : Env) (k : Nat) : Prop :=
  env.sigterm_startup = false ∧ (∀ i, i < k → ∀ w, env.sigterm i w = false)
    ∧ ∀ i, i < k → ∃ c, env.mb_get_fpga_ctrl i = some c ∧ c.req_shutdown = false

/-- The trace of a successful startup, up to and including the "Started"
notice. -/
def startupTrace (env : Env) (eeprom : String) : List Event :=
  (daemonize env).1 ++
    [Event.mb_get_eeprom_path (some eeprom),
     Event.syslog Priority.LOG_NOTICE "Opened mailbox at %s" [SyslogArg.str eeprom],
     Event.mb_check_magic true,
     Event.mb_set_fpga_status { app_startup_finished := true } true,
     Event.syslog Priority.LOG_NOTICE "Started" []]

/-- What `main` does with the result of the loop: continue at `finish`, or
nothing at all when the process image was replaced. -/
def leaveLoop (started : List Event) : List Event × LoopExit → Run
  | (l, LoopExit.finish) => finish (started ++ l)
  | (l, LoopExit.replaced) => ⟨started ++ l, Outcome.replaced⟩
  | (l, LoopExit.running) => ⟨started ++ l, Outcome.running⟩

/-! ## Sample environments -/

/-- The path returned by `mb_get_eeprom_path` in the sample environments. -/
def samplePath : String := "/sys/bus/i2c/devices/0-0050/eeprom"

/-- A privileged run on a healthy mailbox that never requests a shutdown and
never receives `SIGTERM`. -/
def envQuiet : Env where
  geteuid := 0
  fork_first := 0
  setsid := 4711
  fork_second := 0
  chdir := 0
  open_max := 2
  mb_get_eeprom_path := some samplePath
  mb_check_magic := true
  mb_set_fpga_status := true
  mb_get_fpga_ctrl := fun _ => some ⟨false⟩
  execl := fun _ => none
  sigterm_startup := false
  sigterm := fun _ _ => false

/-- The sample environment whose third control read fails. -/
def envReadFailsThird : Env :=
  { envQuiet with mb_get_fpga_ctrl := fun k => if k < 2 then some ⟨false⟩ else none }

/-- The sample environment with a shutdown request in the second poll cycle,
during which `SIGTERM` arrives while the control register is read. -/
def envSigtermDuringRequest : Env :=
  { envQuiet with
    mb_get_fpga_ctrl := fun k => some ⟨decide (1 ≤ k)⟩
    sigterm := fun k w => decide (k = 1 ∧ w = Window.read) }

/-- The sample environment with a shutdown request in the first poll cycle and
an `execl` that fails with `errno = 2` (`ENOENT`). -/
def envLaunchFails : Env :=
  { envQuiet with mb_get_fpga_ctrl := fun _ => some ⟨true⟩, execl := fun _ => some 2 }

/-- The sample environment with a shutdown request in the sixth poll cycle. -/
def envRequestAfterFive : Env :=
  { envQuiet with mb_get_fpga_ctrl := fun k => some ⟨decide (5 ≤ k)⟩ }

/-- The sample environment in which `mb_check_magic` returns false. -/
def envVerifyFails : Env :=
  { envQuiet with mb_check_magic := false }

/-- The sample environment in which `mb_set_fpga_status` returns false. -/
def envStatusFails : Env :=
  { envQuiet with mb_set_fpga_status := false }

/-- The sample environment run by the effective user 1000. -/
def envUnprivileged : Env :=
  { envQuiet with geteuid := 1000 }

/-! ## Basic facts -/

theorem all_imp_countP_zero (P Q : Event → Bool) (hPQ : ∀ e, Q e = true → P e = false)
    (l : List Event) (hl : l.all Q = true) : l.countP P = 0 := by
  rw [List.countP_eq_zero]
  intro e he
  have := (List.all_eq_true.mp hl) e he
  simp [hPQ e this]

theorem all_imp_not_mem (Q : Event → Bool) (e : Event) (he : Q e = false)
    (l : List Event) (hl : l.all Q = true) : e ∉ l := by
  intro hmem
  have := (List.all_eq_true.mp hl) e hmem
  simp [he] at this

theorem closeDown_setup (n : Nat) : (closeDown n).all Event.isSetup = true := by
  induction n with
  | zero => simp [closeDown, Event.isSetup]
  | succ n ih => simpa [closeDown, Event.isSetup] using ih

theorem daemonize_setup (env : Env) : (daemonize env).1.all Event.isSetup = true := by
  have hc := closeDown_setup env.open_max.toNat
  unfold daemonize closeAll
  split_ifs <;> simp [Event.isSetup]
  simpa using hc

theorem daemonize_returns (env : Env) (hd : Daemonized env) : (daemonize env).2 = none := by
  obtain ⟨_, h1, h2, h3, h4⟩ := hd
  unfold daemonize
  simp [h1, h3, not_lt.mpr h2, not_lt.mpr h4]

/-! ## One step of the poll loop -/

theorem pollLoop_flag (env : Env) (fuel k : Nat) :
    pollLoop env fuel k true = ([], LoopExit.finish) := by
  cases fuel <;> simp [pollLoop]

theorem pollLoop_zero (env : Env) (k : Nat) :
    pollLoop env 0 k false = ([], LoopExit.running) := by
  simp [pollLoop]

theorem pollLoop_read_fails (env : Env) (fuel k : Nat) (h : env.mb_get_fpga_ctrl k = none) :
    pollLoop env (fuel + 1) k false =
      ([Event.mb_get_fpga_ctrl none,
        Event.syslog Priority.LOG_ERR "Could not read FPGA_CTRL" []], LoopExit.finish) := by
  simp [pollLoop, h]

theorem pollLoop_quiet_step (env : Env) (fuel k : Nat) (c : mb_fpga_ctrl_t)
    (h : env.mb_get_fpga_ctrl k = some c) (hc : c.req_shutdown = false) :
    pollLoop env (fuel + 1) k false =
      (Event.mb_get_fpga_ctrl (some c) :: Event.handle_fpga_ctrl c :: pollSleep ::
        (pollLoop env fuel (k + 1)
          (env.sigterm k Window.read || env.sigterm k Window.dispatch
            || env.sigterm k Window.sleep)).1,
       (pollLoop env fuel (k + 1)
          (env.sigterm k Window.read || env.sigterm k Window.dispatch
            || env.sigterm k Window.sleep)).2) := by
  simp [pollLoop, h, handle_fpga_ctrl, hc, pollSleep, ts_poll_tv_nsec, POLL_INTERVAL_MS]

theorem pollLoop_replaced (env : Env) (fuel k : Nat) (c : mb_fpga_ctrl_t)
    (h : env.mb_get_fpga_ctrl k = some c) (hc : c.req_shutdown = true)
    (hx : env.execl k = none) :
    pollLoop env (fuel + 1) k false =
      ([Event.mb_get_fpga_ctrl (some c), Event.handle_fpga_ctrl c, shutdownNotice,
        shutdownCall], LoopExit.replaced) := by
  simp [pollLoop, h, handle_fpga_ctrl, hc, hx, shutdownNotice, shutdownCall]

theorem pollLoop_launch_fails (env : Env) (fuel k : Nat) (c : mb_fpga_ctrl_t) (errno : Int)
    (h : env.mb_get_fpga_ctrl k = some c) (hc : c.req_shutdown = true)
    (hx : env.execl k = some errno) :
    pollLoop env (fuel + 1) k false =
      ([Event.mb_get_fpga_ctrl (some c), Event.handle_fpga_ctrl c, shutdownNotice,
        shutdownCall,
        Event.syslog Priority.LOG_ERR "Could not execute shutdown command: %s"
          [SyslogArg.strerror errno],
        pollSleep], LoopExit.finish) := by
  simp [pollLoop, h, handle_fpga_ctrl, hc, hx, shutdownNotice, shutdownCall, pollSleep,
    ts_poll_tv_nsec, POLL_INTERVAL_MS, pollLoop_flag]

theorem pollLoop_all_loop (env : Env) (fuel : Nat) :
    ∀ k t, (pollLoop env fuel k t).1.all Event.isLoop = true := by
  induction fuel with
  | zero => intro k t; cases t <;> simp [pollLoop]
  | succ fuel ih =>
    intro k t
    cases t
    · cases h : env.mb_get_fpga_ctrl k with
      | none => simp [pollLoop_read_fails env fuel k h, Event.isLoop]
      | some c =>
        cases hc : c.req_shutdown
        · rw [pollLoop_quiet_step env fuel k c h hc]
          have := ih (k + 1) (env.sigterm k Window.read || env.sigterm k Window.dispatch
            || env.sigterm k Window.sleep)
          simpa [Event.isLoop, pollSleep] using this
        · cases hx : env.execl k with
          | none =>
            simp [pollLoop_replaced env fuel k c h hc hx, Event.isLoop, shutdownNotice,
              shutdownCall]
          | some errno =>
            simp [pollLoop_launch_fails env fuel k c errno h hc hx, Event.isLoop,
              shutdownNotice, shutdownCall, pollSleep]
    · simp [pollLoop_flag]

/-! ## The shape of a run of `main` -/

theorem leaveLoop_append (s q l : List Event) (x : LoopExit) :
    leaveLoop s (q ++ l, x) = leaveLoop (s ++ q) (l, x) := by
  cases x <;> simp [leaveLoop, finish]

theorem main_unprivileged (env : Env) (fuel : Nat) (h : env.geteuid ≠ 0) :
    main env fuel =
      ⟨[Event.fprintf_stderr "mmcctrld: needs to be launched with root privileges\r\n"],
        Outcome.exited 1⟩ := by
  simp [main, h]

theorem main_daemonize_exits (env : Env) (fuel : Nat) (h : env.geteuid = 0) (status : Nat)
    (hd : (daemonize env).2 = some status) :
    main env fuel = ⟨(daemonize env).1, Outcome.exited status⟩ := by
  unfold main
  rcases hdz : daemonize env with ⟨d, r⟩
  rw [hdz] at hd
  simp at hd
  subst hd
  simp [h]

theorem main_locate_fails (env : Env) (fuel : Nat) (h : env.geteuid = 0)
    (hd : (daemonize env).2 = none) (hp : env.mb_get_eeprom_path = none) :
    main env fuel =
      ⟨(daemonize env).1 ++ [Event.mb_get_eeprom_path none,
          Event.syslog Priority.LOG_ERR "Could not open mailbox" [],
          terminatedEntry, Event.closelog],
        Outcome.exited 0⟩ := by
  unfold main
  rcases hdz : daemonize env with ⟨d, r⟩
  rw [hdz] at hd
  simp at hd
  subst hd
  simp [h, hp, finish, terminatedEntry, EXIT_SUCCESS]

theorem main_verify_fails (env : Env) (fuel : Nat) (h : env.geteuid = 0)
    (hd : (daemonize env).2 = none) (eeprom : String)
    (hp : env.mb_get_eeprom_path = some eeprom) (hm : env.mb_check_magic = false) :
    main env fuel =
      ⟨(daemonize env).1 ++ [Event.mb_get_eeprom_path (some eeprom),
          Event.syslog Priority.LOG_NOTICE "Opened mailbox at %s" [SyslogArg.str eeprom],
          Event.mb_check_magic false,
          Event.syslog Priority.LOG_ERR "Mailbox not available" [],
          terminatedEntry, Event.closelog],
        Outcome.exited 0⟩ := by
  unfold main
  rcases hdz : daemonize env with ⟨d, r⟩
  rw [hdz] at hd
  simp at hd
  subst hd
  simp [h, hp, hm, finish, terminatedEntry, EXIT_SUCCESS]

theorem main_status_fails (env : Env) (fuel : Nat) (h : env.geteuid = 0)
    (hd : (daemonize env).2 = none) (eeprom : String)
    (hp : env.mb_get_eeprom_path = some eeprom) (hm : env.mb_check_magic = true)
    (hs : env.mb_set_fpga_status = false) :
    main env fuel =
      ⟨(daemonize env).1 ++ [Event.mb_get_eeprom_path (some eeprom),
          Event.syslog Priority.LOG_NOTICE "Opened mailbox at %s" [SyslogArg.str eeprom],
          Event.mb_check_magic true,
          Event.mb_set_fpga_status { app_startup_finished := true } false,
          Event.syslog Priority.LOG_ERR "Could not set FPGA status" [],
          terminatedEntry, Event.closelog],
        Outcome.exited 0⟩ := by
  unfold main
  rcases hdz : daemonize env with ⟨d, r⟩
  rw [hdz] at hd
  simp at hd
  subst hd
  simp [h, hp, hm, hs, finish, terminatedEntry, EXIT_SUCCESS]

theorem main_enters_loop (env : Env) (fuel : Nat) (h : env.geteuid = 0)
    (hd : (daemonize env).2 = none) (eeprom : String)
    (hp : env.mb_get_eeprom_path = some eeprom) (hm : env.mb_check_magic = true)
    (hs : env.mb_set_fpga_status = true) :
    main env fuel =
      leaveLoop (startupTrace env eeprom) (pollLoop env fuel 0 env.sigterm_startup) := by
  unfold main startupTrace
  rcases hdz : daemonize env with ⟨d, r⟩
  rw [hdz] at hd
  simp at hd
  subst hd
  rcases hl : pollLoop env fuel 0 env.sigterm_startup with ⟨l, x⟩
  cases x <;> simp [h, hp, hm, hs, hl, leaveLoop]

theorem main_of_startup (env : Env) (eeprom : String) (hs : StartupSucceeds env eeprom)
    (fuel : Nat) :
    main env fuel =
      leaveLoop (startupTrace env eeprom) (pollLoop env fuel 0 env.sigterm_startup) :=
  main_enters_loop env fuel hs.1.1 (daemonize_returns env hs.1) eeprom hs.2.1 hs.2.2.1 hs.2.2.2

/-- Every run of `main` has one of six shapes. -/
theorem main_cases (env : Env) (fuel : Nat) :
    main env fuel =
        ⟨[Event.fprintf_stderr "mmcctrld: needs to be launched with root privileges\r\n"],
          Outcome.exited 1⟩
    ∨ (∃ status, main env fuel = ⟨(daemonize env).1, Outcome.exited status⟩)
    ∨ main env fuel =
        ⟨(daemonize env).1 ++ [Event.mb_get_eeprom_path none,
            Event.syslog Priority.LOG_ERR "Could not open mailbox" [],
            terminatedEntry, Event.closelog],
          Outcome.exited 0⟩
    ∨ (∃ eeprom, main env fuel =
        ⟨(daemonize env).1 ++ [Event.mb_get_eeprom_path (some eeprom),
            Event.syslog Priority.LOG_NOTICE "Opened mailbox at %s" [SyslogArg.str eeprom],
            Event.mb_check_magic false,
            Event.syslog Priority.LOG_ERR "Mailbox not available" [],
            terminatedEntry, Event.closelog],
          Outcome.exited 0⟩)
    ∨ (∃ eeprom, main env fuel =
        ⟨(daemonize env).1 ++ [Event.mb_get_eeprom_path (some eeprom),
            Event.syslog Priority.LOG_NOTICE "Opened mailbox at %s" [SyslogArg.str eeprom],
            Event.mb_check_magic true,
            Event.mb_set_fpga_status { app_startup_finished := true } false,
            Event.syslog Priority.LOG_ERR "Could not set FPGA status" [],
            terminatedEntry, Event.closelog],
          Outcome.exited 0⟩)
    ∨ (∃ eeprom, main env fuel =
        leaveLoop (startupTrace env eeprom) (pollLoop env fuel 0 env.sigterm_startup)) := by
  by_cases h : env.geteuid = 0
  · cases hd : (daemonize env).2 with
    | some status => exact Or.inr (Or.inl ⟨status, main_daemonize_exits env fuel h status hd⟩)
    | none =>
      cases hp : env.mb_get_eeprom_path with
      | none => exact Or.inr (Or.inr (Or.inl (main_locate_fails env fuel h hd hp)))
      | some eeprom =>
        cases hm : env.mb_check_magic
        · exact Or.inr (Or.inr (Or.inr (Or.inl
            ⟨eeprom, main_verify_fails env fuel h hd eeprom hp hm⟩)))
        · cases hs : env.mb_set_fpga_status
          · exact Or.inr (Or.inr (Or.inr (Or.inr (Or.inl
              ⟨eeprom, main_status_fails env fuel h hd eeprom hp hm hs⟩))))
          · exact Or.inr (Or.inr (Or.inr (Or.inr (Or.inr
              ⟨eeprom, main_enters_loop env fuel h hd eeprom hp hm hs⟩))))
  · exact Or.inl (main_unprivileged env fuel h)

/-! ## Poll cycles without shutdown request -/

theorem pollLoop_reach (env : Env) (n : Nat) :
    ∀ k, (∀ i, i < n → ∀ w, env.sigterm (k + i) w = false) →
      (∀ i, i < n → ∃ c, env.mb_get_fpga_ctrl (k + i) = some c ∧ c.req_shutdown = false) →
      ∃ q : List Event, q.all Event.isQuiet = true ∧ q.countP Event.isCtrlRead = n
        ∧ q.countP Event.isDispatch = n ∧ q.countP Event.isSleep = n
        ∧ ∀ fuel, pollLoop env (n + fuel) k false =
            (q ++ (pollLoop env fuel (k + n) false).1, (pollLoop env fuel (k + n) false).2) := by
  induction n with
  | zero =>
    intro k _ _
    exact ⟨[], by simp⟩
  | succ n ih =>
    intro k hsig hq
    obtain ⟨c, hc, hreq⟩ := hq 0 (Nat.succ_pos n)
    have hs0 := hsig 0 (Nat.succ_pos n)
    simp only [Nat.add_zero] at hc hs0
    obtain ⟨q, hq1, hq2, hq3, hq4, hq5⟩ := ih (k + 1)
      (fun i hi w => by have := hsig (i + 1) (Nat.succ_lt_succ hi) w; rwa [Nat.add_comm i 1, ← Nat.add_assoc] at this)
      (fun i hi => by have := hq (i + 1) (Nat.succ_lt_succ hi); rwa [Nat.add_comm i 1, ← Nat.add_assoc] at this)
    refine ⟨Event.mb_get_fpga_ctrl (some c) :: Event.handle_fpga_ctrl c :: pollSleep :: q,
      ?_, ?_, ?_, ?_, ?_⟩
    · simp [Event.isQuiet, hreq, pollSleep, hq1]
    · simp [List.countP_cons, Event.isCtrlRead, pollSleep, hq2]
    · simp [List.countP_cons, Event.isDispatch, pollSleep, hq3]
    · simp [List.countP_cons, Event.isSleep, pollSleep, hq4]
    · intro fuel
      have e1 : n + 1 + fuel = (n + fuel) + 1 := by omega
      have e2 : k + (n + 1) = k + 1 + n := by omega
      rw [e1, pollLoop_quiet_step env (n + fuel) k c hc hreq, hs0 Window.read,
        hs0 Window.dispatch, hs0 Window.sleep, e2]
      simp [hq5 fuel]

theorem pollLoop_ends (env : Env) (fuel : Nat) :
    ∀ k t, (t = true ∨ ∃ j, j < fuel ∧ (env.mb_get_fpga_ctrl (k + j) = none
        ∨ (∃ c, env.mb_get_fpga_ctrl (k + j) = some c ∧ c.req_shutdown = true)
        ∨ ∃ w, env.sigterm (k + j) w = true)) →
      (pollLoop env fuel k t).2 ≠ LoopExit.running := by
  induction fuel with
  | zero =>
    intro k t h
    rcases h with h | ⟨j, hj, _⟩
    · subst h; simp [pollLoop_flag]
    · omega
  | succ fuel ih =>
    intro k t h
    cases t
    · cases hr : env.mb_get_fpga_ctrl k with
      | none => simp [pollLoop_read_fails env fuel k hr]
      | some c =>
        cases hc : c.req_shutdown
        · rw [pollLoop_quiet_step env fuel k c hr hc]
          apply ih
          rcases h with h | ⟨j, hj, hstop⟩
          · simp at h
          · cases j with
            | zero =>
              simp only [Nat.add_zero] at hstop
              rcases hstop with h1 | ⟨c2, h2, h3⟩ | ⟨w, hw⟩
              · rw [hr] at h1; simp at h1
              · rw [hr] at h2; simp at h2; subst h2; rw [hc] at h3; simp at h3
              · left
                cases w <;> simp [hw]
            | succ j =>
              right
              refine ⟨j, by omega, ?_⟩
              have e : k + 1 + j = k + (j + 1) := by omega
              rw [e]; exact hstop
        · cases hx : env.execl k with
          | none => simp [pollLoop_replaced env fuel k c hr hc hx]
          | some errno => simp [pollLoop_launch_fails env fuel k c errno hr hc hx]
    · simp [pollLoop_flag]

/-! ## How the observers relate -/

theorem setup_not_execl (e : Event) (h : e.isSetup = true) : e.isExecl = false := by
  cases e <;> simp_all [Event.isSetup, Event.isExecl]

theorem setup_not_ctrlRead (e : Event) (h : e.isSetup = true) : e.isCtrlRead = false := by
  cases e <;> simp_all [Event.isSetup, Event.isCtrlRead]

theorem setup_not_dispatch (e : Event) (h : e.isSetup = true) : e.isDispatch = false := by
  cases e <;> simp_all [Event.isSetup, Event.isDispatch]

theorem setup_not_statusWrite (e : Event) (h : e.isSetup = true) :
    e.isStatusWrite = false := by
  cases e <;> simp_all [Event.isSetup, Event.isStatusWrite]

theorem setup_not_syslog (e : Event) (h : e.isSetup = true) : e.isSyslog = false := by
  cases e <;> simp_all [Event.isSetup, Event.isSyslog]

theorem setup_not_sleep (e : Event) (h : e.isSetup = true) : e.isSleep = false := by
  cases e <;> simp_all [Event.isSetup, Event.isSleep]

theorem setup_not_terminated (e : Event) (h : e.isSetup = true) :
    e.isTerminated = false := by
  cases e <;> simp_all [Event.isSetup, Event.isTerminated, terminatedEntry]

theorem quiet_not_execl (e : Event) (h : e.isQuiet = true) : e.isExecl = false := by
  cases e <;> simp_all [Event.isQuiet, Event.isExecl]

theorem quiet_not_terminated (e : Event) (h : e.isQuiet = true) :
    e.isTerminated = false := by
  cases e <;> simp_all [Event.isQuiet, Event.isTerminated, terminatedEntry]

theorem loop_not_statusWrite (e : Event) (h : e.isLoop = true) :
    e.isStatusWrite = false := by
  cases e <;> simp_all [Event.isLoop, Event.isStatusWrite]

theorem loop_not_terminated (e : Event) (h : e.isLoop = true) : e.isTerminated = false := by
  cases e with
  | syslog pri fmt args =>
    simp only [Event.isLoop, decide_eq_true_eq] at h
    simp only [Event.isTerminated, terminatedEntry, decide_eq_false_iff_not]
    intro heq
    injection heq with _ h2 _
    subst h2
    revert h
    decide
  | _ => simp_all [Event.isLoop, Event.isTerminated, terminatedEntry]

/-! ## Reaching poll cycle `k` -/

theorem leaveLoop_trace (s l : List Event) (x : LoopExit) :
    (leaveLoop s (l, x)).trace =
      s ++ l ++ (if x = LoopExit.finish then [terminatedEntry, Event.closelog] else []) := by
  cases x <;> simp [leaveLoop, finish, terminatedEntry]

theorem startupTrace_counts (env : Env) (eeprom : String) :
    (startupTrace env eeprom).countP Event.isCtrlRead = 0
      ∧ (startupTrace env eeprom).countP Event.isDispatch = 0
      ∧ (startupTrace env eeprom).countP Event.isExecl = 0
      ∧ (startupTrace env eeprom).countP Event.isSleep = 0
      ∧ (startupTrace env eeprom).countP Event.isTerminated = 0
      ∧ (startupTrace env eeprom).countP Event.isStatusWrite = 1 := by
  have hd := daemonize_setup env
  simp only [startupTrace, List.countP_append]
  rw [all_imp_countP_zero _ _ setup_not_ctrlRead _ hd,
    all_imp_countP_zero _ _ setup_not_dispatch _ hd,
    all_imp_countP_zero _ _ setup_not_execl _ hd,
    all_imp_countP_zero _ _ setup_not_sleep _ hd,
    all_imp_countP_zero _ _ setup_not_terminated _ hd,
    all_imp_countP_zero _ _ setup_not_statusWrite _ hd]
  simp [List.countP_cons, Event.isCtrlRead, Event.isDispatch, Event.isExecl, Event.isSleep,
    Event.isTerminated, Event.isStatusWrite, terminatedEntry]

/-- After a successful startup and `k` poll cycles without shutdown request and
without `SIGTERM`, `main` stands at the loop condition of cycle `k` with the
flag clear; the trace so far holds `k` control reads, `k` dispatches, `k`
sleeps, no `execl` and no "Terminated". -/
theorem main_reach (env : Env) (eeprom : String) (k : Nat) (hs : StartupSucceeds env eeprom)
    (hr : ReachesCycle env k) :
    ∃ before : List Event, before.countP Event.isCtrlRead = k
      ∧ before.countP Event.isDispatch = k ∧ before.countP Event.isSleep = k
      ∧ before.countP Event.isExecl = 0 ∧ before.countP Event.isTerminated = 0
      ∧ ∀ fuel, main env (k + fuel) = leaveLoop before (pollLoop env fuel k false) := by
  obtain ⟨h0, hsig, hq⟩ := hr
  obtain ⟨q, hq1, hq2, hq3, hq4, hq5⟩ := pollLoop_reach env k 0
    (fun i hi w => by simpa using hsig i hi w) (fun i hi => by simpa using hq i hi)
  obtain ⟨c1, c2, c3, c4, c5, _⟩ := startupTrace_counts env eeprom
  refine ⟨startupTrace env eeprom ++ q, ?_, ?_, ?_, ?_, ?_, ?_⟩
  · simp [List.countP_append, c1, hq2]
  · simp [List.countP_append, c2, hq3]
  · simp [List.countP_append, c4, hq4]
  · simp [List.countP_append, c3, all_imp_countP_zero _ _ quiet_not_execl _ hq1]
  · simp [List.countP_append, c5, all_imp_countP_zero _ _ quiet_not_terminated _ hq1]
  · intro fuel
    rw [main_of_startup env eeprom hs, h0, hq5 fuel, leaveLoop_append]
    simp

/-- When no control read fails and no snapshot requests a shutdown, the loop
performs only control reads, dispatches and sleeps, and the process image is
never replaced. -/
theorem pollLoop_all_quiet (env : Env)
    (hq : ∀ k, ∃ c, env.mb_get_fpga_ctrl k = some c ∧ c.req_shutdown = false) (fuel : Nat) :
    ∀ k t, (pollLoop env fuel k t).1.all Event.isQuiet = true
      ∧ (pollLoop env fuel k t).2 ≠ LoopExit.replaced := by
  induction fuel with
  | zero => intro k t; cases t <;> simp [pollLoop]
  | succ fuel ih =>
    intro k t
    cases t
    · obtain ⟨c, hc, hreq⟩ := hq k
      rw [pollLoop_quiet_step env fuel k c hc hreq]
      have := ih (k + 1) (env.sigterm k Window.read || env.sigterm k Window.dispatch
        || env.sigterm k Window.sleep)
      refine ⟨?_, this.2⟩
      simpa [Event.isQuiet, hreq, pollSleep] using this.1
    · simp [pollLoop_flag]

/-! ## Which events the parts of a run can hold -/

theorem not_mem_daemonize (env : Env) (e : Event) (h : e.isSetup = false) :
    e ∉ (daemonize env).1 :=
  all_imp_not_mem Event.isSetup e h _ (daemonize_setup env)

theorem not_mem_pollLoop (env : Env) (fuel k : Nat) (t : Bool) (e : Event)
    (h : e.isLoop = false) : e ∉ (pollLoop env fuel k t).1 :=
  all_imp_not_mem Event.isLoop e h _ (pollLoop_all_loop env fuel k t)

theorem daemonize_no_statusWrite (env : Env) :
    (daemonize env).1.countP Event.isStatusWrite = 0 :=
  all_imp_countP_zero _ _ setup_not_statusWrite _ (daemonize_setup env)

theorem daemonize_no_ctrlRead (env : Env) :
    (daemonize env).1.countP Event.isCtrlRead = 0 :=
  all_imp_countP_zero _ _ setup_not_ctrlRead _ (daemonize_setup env)

theorem daemonize_no_dispatch (env : Env) :
    (daemonize env).1.countP Event.isDispatch = 0 :=
  all_imp_countP_zero _ _ setup_not_dispatch _ (daemonize_setup env)

theorem daemonize_no_execl (env : Env) :
    (daemonize env).1.countP Event.isExecl = 0 :=
  all_imp_countP_zero _ _ setup_not_execl _ (daemonize_setup env)

theorem daemonize_no_terminated (env : Env) :
    (daemonize env).1.countP Event.isTerminated = 0 :=
  all_imp_countP_zero _ _ setup_not_terminated _ (daemonize_setup env)

theorem daemonize_no_syslog (env : Env) :
    (daemonize env).1.filter Event.isSyslog = [] := by
  rw [List.filter_eq_nil_iff]
  intro e he
  have := (List.all_eq_true.mp (daemonize_setup env)) e he
  simp [setup_not_syslog e this]

theorem pollLoop_no_statusWrite (env : Env) (fuel k : Nat) (t : Bool) :
    (pollLoop env fuel k t).1.countP Event.isStatusWrite = 0 :=
  all_imp_countP_zero _ _ loop_not_statusWrite _ (pollLoop_all_loop env fuel k t)

theorem pollLoop_no_terminated (env : Env) (fuel k : Nat) (t : Bool) :
    (pollLoop env fuel k t).1.countP Event.isTerminated = 0 :=
  all_imp_countP_zero _ _ loop_not_terminated _ (pollLoop_all_loop env fuel k t)

/-- If the event `e` does not occur in `a`, then every occurrence of `e` in
`a ++ b` has all of `a` before it. -/
theorem append_split_of_not_mem (a b before after : List Event) (e : Event) (he : e ∉ a)
    (h : a ++ b = before ++ e :: after) : ∃ r, before = a ++ r := by
  rcases List.append_eq_append_iff.mp h with ⟨r, hr, _⟩ | ⟨r, hr, hr2⟩
  · exact ⟨r, hr⟩
  · cases r with
    | nil => exact ⟨[], by simpa using hr.symm⟩
    | cons x r =>
      simp only [List.cons_append, List.cons.injEq] at hr2
      exfalso
      apply he
      rw [hr, hr2.1]
      simp

theorem pollLoop_head (env : Env) (fuel k : Nat) :
    ∃ rest, (pollLoop env (fuel + 1) k false).1
      = Event.mb_get_fpga_ctrl (env.mb_get_fpga_ctrl k) :: rest := by
  cases hr : env.mb_get_fpga_ctrl k with
  | none => exact ⟨_, by rw [pollLoop_read_fails env fuel k hr]⟩
  | some c =>
    cases hc : c.req_shutdown
    · exact ⟨_, by rw [pollLoop_quiet_step env fuel k c hr hc]⟩
    · cases hx : env.execl k with
      | none => exact ⟨_, by rw [pollLoop_replaced env fuel k c hr hc hx]⟩
      | some errno => exact ⟨_, by rw [pollLoop_launch_fails env fuel k c errno hr hc hx]⟩

theorem setup_not_poll (e : Event) (h : e.isSetup = true) : e.isPoll = false := by
  simp [Event.isPoll, setup_not_ctrlRead e h, setup_not_dispatch e h, setup_not_execl e h]

theorem daemonize_no_poll (env : Env) : (daemonize env).1.countP Event.isPoll = 0 :=
  all_imp_countP_zero _ _ setup_not_poll _ (daemonize_setup env)

theorem not_mem_of_countP_zero (P : Event → Bool) (l : List Event) (h : l.countP P = 0)
    (e : Event) (he : P e = true) : e ∉ l := by
  intro hmem
  have := (List.countP_eq_zero.mp h) e hmem
  simp [he] at this

theorem countP_le_of_split (P : Event → Bool) (l before after : List Event) (e : Event)
    (h : l = before ++ e :: after) (he : P e = true) : 0 < l.countP P := by
  rw [h]
  simp [List.countP_append, List.countP_cons, he]

/-! ## The claims -/

/-- C1: after a successful startup, when every control read succeeds with
`req_shutdown = false`, no run invokes `execl` or replaces the process image,
and the loop keeps polling: if no `SIGTERM` arrives before the loop condition
of cycle `n`, the control read of cycle `n` takes place (the trace holds at
least `n + 1` control reads once `n + 1` cycles are simulated), and while no
`SIGTERM` arrives the process is still polling after any number of cycles. -/
theorem C1_no_request_keeps_polling (env : Env) (eeprom : String)
    (hs : StartupSucceeds env eeprom)
    (hq : ∀ k, ∃ c, env.mb_get_fpga_ctrl k = some c ∧ c.req_shutdown = false) :
    (∀ fuel, (main env fuel).trace.countP Event.isExecl = 0
        ∧ (main env fuel).outcome ≠ Outcome.replaced)
      ∧ (∀ n fuel, env.sigterm_startup = false →
          (∀ i, i < n → ∀ w, env.sigterm i w = false) → n < fuel →
          n + 1 ≤ (main env fuel).trace.countP Event.isCtrlRead)
      ∧ (∀ fuel, env.sigterm_startup = false →
          (∀ i, i < fuel → ∀ w, env.sigterm i w = false) →
          (main env fuel).outcome = Outcome.running
            ∧ (main env fuel).trace.countP Event.isCtrlRead = fuel) := by
  refine ⟨?_, ?_, ?_⟩
  · intro fuel
    rw [main_of_startup env eeprom hs]
    obtain ⟨hall, hne⟩ := pollLoop_all_quiet env hq fuel 0 env.sigterm_startup
    rcases hl : pollLoop env fuel 0 env.sigterm_startup with ⟨l, x⟩
    rw [hl] at hall hne
    have hl0 := all_imp_countP_zero _ _ quiet_not_execl _ hall
    have hs0 := (startupTrace_counts env eeprom).2.2.1
    simp only at hl0 hne
    cases x
    · simp [leaveLoop, finish, List.countP_append, hl0, hs0, List.countP_cons, Event.isExecl]
    · exact absurd rfl hne
    · simp [leaveLoop, List.countP_append, hl0, hs0]
  · intro n fuel h0 hsig hlt
    obtain ⟨before, b1, -, -, -, -, hrun⟩ := main_reach env eeprom n hs
      ⟨h0, hsig, fun i _ => hq i⟩
    obtain ⟨m, rfl⟩ : ∃ m, fuel = n + (m + 1) := ⟨fuel - n - 1, by omega⟩
    obtain ⟨c, hc, hreq⟩ := hq n
    rw [hrun, pollLoop_quiet_step env m n c hc hreq, leaveLoop_trace]
    simp [List.countP_append, List.countP_cons, b1, Event.isCtrlRead]
  · intro fuel h0 hsig
    obtain ⟨before, b1, -, -, -, -, hrun⟩ := main_reach env eeprom fuel hs
      ⟨h0, hsig, fun i _ => hq i⟩
    have := hrun 0
    rw [Nat.add_zero, pollLoop_zero] at this
    rw [this]
    simp [leaveLoop, b1]

/-- Witness of C1: the sample environment, whose control reads never request a
shutdown. -/
theorem C1_no_request_keeps_polling_witness :
    (main envQuiet 4).trace.countP Event.isExecl = 0
      ∧ (main envQuiet 4).outcome = Outcome.running
      ∧ (main envQuiet 4).trace.countP Event.isCtrlRead = 4 :=
  have h := C1_no_request_keeps_polling envQuiet samplePath
    ⟨⟨rfl, rfl, by decide, rfl, by decide⟩, rfl, rfl, rfl⟩ (fun _ => ⟨⟨false⟩, rfl, rfl⟩)
  ⟨(h.1 4).1, (h.2.2 4 rfl (fun _ _ _ => rfl)).1, (h.2.2 4 rfl (fun _ _ _ => rfl)).2⟩

/-- C2: after a successful startup, when cycle `k` is the first whose snapshot
has `req_shutdown = true` (the cycles before it read snapshots without request
and no `SIGTERM` arrives before it), the run holds exactly one invocation of
`execl`: it is in cycle `k`, right after the notice "Shutdown requested by MMC",
and nothing before it is an invocation.  If that invocation succeeds, the
trace ends there: no later control read, no later log entry, outcome
`replaced`. -/
theorem C2_first_request_one_shutdown (env : Env) (eeprom : String) (k fuel : Nat)
    (c : mb_fpga_ctrl_t) (hs : StartupSucceeds env eeprom) (hr : ReachesCycle env k)
    (hk : env.mb_get_fpga_ctrl k = some c) (hreq : c.req_shutdown = true) (hfuel : k < fuel) :
    ∃ before after : List Event,
      (main env fuel).trace =
          before ++ [Event.mb_get_fpga_ctrl (some c), Event.handle_fpga_ctrl c,
            Event.syslog Priority.LOG_NOTICE "Shutdown requested by MMC" [],
            Event.execl "/sbin/shutdown" ["shutdown", "-h", "now"]] ++ after
        ∧ before.countP Event.isCtrlRead = k
        ∧ before.countP Event.isExecl = 0
        ∧ after.countP Event.isExecl = 0
        ∧ after.countP Event.isCtrlRead = 0
        ∧ (main env fuel).trace.countP Event.isExecl = 1
        ∧ (env.execl k = none → after = [] ∧ (main env fuel).outcome = Outcome.replaced) := by
  obtain ⟨before, b1, -, -, b4, -, hrun⟩ := main_reach env eeprom k hs hr
  obtain ⟨m, rfl⟩ : ∃ m, fuel = k + (m + 1) := ⟨fuel - k - 1, by omega⟩
  cases hx : env.execl k with
  | none =>
    refine ⟨before, [], ?_, b1, b4, rfl, rfl, ?_, ?_⟩
    · rw [hrun, pollLoop_replaced env m k c hk hreq hx]
      simp [leaveLoop, shutdownNotice, shutdownCall]
    · rw [hrun, pollLoop_replaced env m k c hk hreq hx]
      simp [leaveLoop, shutdownNotice, shutdownCall, List.countP_append, b4, List.countP_cons,
        Event.isExecl]
    · intro _
      rw [hrun, pollLoop_replaced env m k c hk hreq hx]
      simp [leaveLoop]
  | some errno =>
    refine ⟨before, [Event.syslog Priority.LOG_ERR "Could not execute shutdown command: %s"
      [SyslogArg.strerror errno], pollSleep, terminatedEntry, Event.closelog], ?_, b1, b4,
      ?_, ?_, ?_, ?_⟩
    · rw [hrun, pollLoop_launch_fails env m k c errno hk hreq hx]
      simp [leaveLoop, finish, shutdownNotice, shutdownCall, terminatedEntry]
    · simp [List.countP_cons, Event.isExecl, pollSleep, terminatedEntry]
    · simp [List.countP_cons, Event.isCtrlRead, pollSleep, terminatedEntry]
    · rw [hrun, pollLoop_launch_fails env m k c errno hk hreq hx]
      simp [leaveLoop, finish, shutdownNotice, shutdownCall, List.countP_append, b4,
        List.countP_cons, Event.isExecl, pollSleep]
    · intro h; simp at h

/-- Witness of C2: five control reads without request, then one with request,
and `execl` succeeds. -/
theorem C2_first_request_one_shutdown_witness :
    ReachesCycle envRequestAfterFive 5 ∧
    ∃ before after : List Event,
      (main envRequestAfterFive 6).trace =
          before ++ [Event.mb_get_fpga_ctrl (some ⟨true⟩), Event.handle_fpga_ctrl ⟨true⟩,
            Event.syslog Priority.LOG_NOTICE "Shutdown requested by MMC" [],
            Event.execl "/sbin/shutdown" ["shutdown", "-h", "now"]] ++ after
        ∧ before.countP Event.isCtrlRead = 5
        ∧ before.countP Event.isExecl = 0
        ∧ after.countP Event.isExecl = 0
        ∧ after.countP Event.isCtrlRead = 0
        ∧ (main envRequestAfterFive 6).trace.countP Event.isExecl = 1
        ∧ (envRequestAfterFive.execl 5 = none →
            after = [] ∧ (main envRequestAfterFive 6).outcome = Outcome.replaced) :=
  have hr : ReachesCycle envRequestAfterFive 5 :=
    ⟨rfl, fun _ _ _ => rfl, fun i hi => ⟨⟨false⟩, by
      have : decide (5 ≤ i) = false := by simpa using hi
      simp [envRequestAfterFive, this], rfl⟩⟩
  ⟨hr, C2_first_request_one_shutdown envRequestAfterFive samplePath 5 6 ⟨true⟩
    ⟨⟨rfl, rfl, by decide, rfl, by decide⟩, rfl, rfl, rfl⟩ hr rfl rfl (by decide)⟩

/-- C3: in every run of `main` the status write happens at most once, and it
carries `app_startup_finished = true`.  When `mb_get_eeprom_path` has returned
a path and `mb_check_magic` has returned true, it happens exactly once, and
both of those calls come before it.  When `mb_get_eeprom_path` has returned
NULL or `mb_check_magic` has returned false, it does not happen. -/
theorem C3_status_written_once (env : Env) (fuel : Nat) :
    (main env fuel).trace.countP Event.isStatusWrite ≤ 1
      ∧ (∀ stat ret, Event.mb_set_fpga_status stat ret ∈ (main env fuel).trace →
          stat.app_startup_finished = true)
      ∧ (∀ eeprom, Event.mb_get_eeprom_path (some eeprom) ∈ (main env fuel).trace →
          Event.mb_check_magic true ∈ (main env fuel).trace →
          (main env fuel).trace.countP Event.isStatusWrite = 1
            ∧ ∃ before ret after,
                (main env fuel).trace
                  = before ++ Event.mb_set_fpga_status ⟨true⟩ ret :: after
                ∧ Event.mb_get_eeprom_path (some eeprom) ∈ before
                ∧ Event.mb_check_magic true ∈ before)
      ∧ ((Event.mb_get_eeprom_path none ∈ (main env fuel).trace
            ∨ Event.mb_check_magic false ∈ (main env fuel).trace) →
          (main env fuel).trace.countP Event.isStatusWrite = 0) := by
  have nd := fun e h => not_mem_daemonize env e h
  have nl := fun e h => not_mem_pollLoop env fuel 0 env.sigterm_startup e h
  have cd := daemonize_no_statusWrite env
  have cl := pollLoop_no_statusWrite env fuel 0 env.sigterm_startup
  rcases main_cases env fuel with h | ⟨status, h⟩ | h | ⟨p, h⟩ | ⟨p, h⟩ | ⟨p, h⟩
  · rw [h]
    simp [Event.isStatusWrite]
  · rw [h]
    simp [cd, nd, Event.isSetup]
  · rw [h]
    simp [cd, nd, Event.isSetup, List.countP_cons, Event.isStatusWrite, terminatedEntry]
  · rw [h]
    simp [cd, nd, Event.isSetup, List.countP_cons, Event.isStatusWrite, terminatedEntry]
  · rw [h]
    refine ⟨?_, ?_, ?_, ?_⟩
    · simp [cd, List.countP_cons, Event.isStatusWrite, terminatedEntry]
    · simp [nd, Event.isSetup, terminatedEntry]
    · intro eeprom h1 _
      simp [nd, Event.isSetup, terminatedEntry] at h1
      subst h1
      refine ⟨by simp [cd, List.countP_cons, Event.isStatusWrite, terminatedEntry], ?_⟩
      exact ⟨(daemonize env).1 ++ [Event.mb_get_eeprom_path (some eeprom),
        Event.syslog Priority.LOG_NOTICE "Opened mailbox at %s" [SyslogArg.str eeprom],
        Event.mb_check_magic true], false,
        [Event.syslog Priority.LOG_ERR "Could not set FPGA status" [], terminatedEntry,
          Event.closelog], by simp, by simp, by simp⟩
    · simp [nd, Event.isSetup, terminatedEntry]
  · rcases hl : pollLoop env fuel 0 env.sigterm_startup with ⟨l, x⟩
    rw [hl] at nl cl
    rw [h, hl, leaveLoop_trace]
    simp only at nl cl
    simp only [startupTrace]
    refine ⟨?_, ?_, ?_, ?_⟩
    · cases x <;> simp [cd, cl, List.countP_cons, Event.isStatusWrite, terminatedEntry]
    · cases x <;> simp [nd, nl, Event.isSetup, Event.isLoop, terminatedEntry]
    · intro eeprom h1 _
      have h3 : eeprom = p := by
        cases x <;> simpa [nd, nl, Event.isSetup, Event.isLoop, terminatedEntry] using h1
      subst h3
      refine ⟨by cases x <;>
        simp [cd, cl, List.countP_cons, Event.isStatusWrite, terminatedEntry], ?_⟩
      exact ⟨(daemonize env).1 ++ [Event.mb_get_eeprom_path (some eeprom),
        Event.syslog Priority.LOG_NOTICE "Opened mailbox at %s" [SyslogArg.str eeprom],
        Event.mb_check_magic true], true,
        Event.syslog Priority.LOG_NOTICE "Started" [] ::
          (l ++ if x = LoopExit.finish then [terminatedEntry, Event.closelog] else []),
        by simp, by simp, by simp⟩
    · cases x <;> simp [nd, nl, Event.isSetup, Event.isLoop, terminatedEntry]

/-- Witness of C3: in the sample run both calls succeed and the status is
written once. -/
theorem C3_status_written_once_witness :
    Event.mb_get_eeprom_path (some samplePath) ∈ (main envQuiet 2).trace
      ∧ Event.mb_check_magic true ∈ (main envQuiet 2).trace
      ∧ (main envQuiet 2).trace.countP Event.isStatusWrite = 1 :=
  ⟨by decide, by decide,
    ((C3_status_written_once envQuiet 2).2.2.1 samplePath (by decide) (by decide)).1⟩

/-- C4: in every run of `main`, each control read, each dispatch and each
invocation of `execl` has before it a call of `mb_get_eeprom_path` that
returned a path, a call of `mb_check_magic` that returned true, a status write
that returned true and the "Started" notice.  When one of the three startup
calls has failed, the trace holds no control read, no dispatch, no `execl` and
no "Started" notice. -/
theorem C4_no_poll_before_status (env : Env) (fuel : Nat) :
    (∀ before e after, (main env fuel).trace = before ++ e :: after →
        (e.isCtrlRead = true ∨ e.isDispatch = true ∨ e.isExecl = true) →
        (∃ eeprom, Event.mb_get_eeprom_path (some eeprom) ∈ before)
          ∧ Event.mb_check_magic true ∈ before
          ∧ Event.mb_set_fpga_status ⟨true⟩ true ∈ before
          ∧ Event.syslog Priority.LOG_NOTICE "Started" [] ∈ before)
      ∧ ((Event.mb_get_eeprom_path none ∈ (main env fuel).trace
            ∨ Event.mb_check_magic false ∈ (main env fuel).trace
            ∨ ∃ stat, Event.mb_set_fpga_status stat false ∈ (main env fuel).trace) →
          (main env fuel).trace.countP Event.isCtrlRead = 0
            ∧ (main env fuel).trace.countP Event.isDispatch = 0
            ∧ (main env fuel).trace.countP Event.isExecl = 0
            ∧ Event.syslog Priority.LOG_NOTICE "Started" [] ∉ (main env fuel).trace) := by
  have nd := fun e h => not_mem_daemonize env e h
  have nl := fun e h => not_mem_pollLoop env fuel 0 env.sigterm_startup e h
  have cp := daemonize_no_poll env
  have c1 := daemonize_no_ctrlRead env
  have c2 := daemonize_no_dispatch env
  have c3 := daemonize_no_execl env
  have key : ∀ e : Event, (e.isCtrlRead = true ∨ e.isDispatch = true ∨ e.isExecl = true) →
      e.isPoll = true := by
    intro e he
    rcases he with h | h | h <;> simp [Event.isPoll, h]
  have noPoll : (main env fuel).trace.countP Event.isPoll = 0 →
      ∀ before e after, (main env fuel).trace = before ++ e :: after →
        (e.isCtrlRead = true ∨ e.isDispatch = true ∨ e.isExecl = true) →
        (∃ eeprom, Event.mb_get_eeprom_path (some eeprom) ∈ before)
          ∧ Event.mb_check_magic true ∈ before
          ∧ Event.mb_set_fpga_status ⟨true⟩ true ∈ before
          ∧ Event.syslog Priority.LOG_NOTICE "Started" [] ∈ before := by
    intro h0 before e after hsplit he
    have := countP_le_of_split Event.isPoll _ before after e hsplit (key e he)
    omega
  rcases main_cases env fuel with h | ⟨status, h⟩ | h | ⟨p, h⟩ | ⟨p, h⟩ | ⟨p, h⟩
  · refine ⟨noPoll (by rw [h]; simp [Event.isPoll, Event.isCtrlRead, Event.isDispatch,
      Event.isExecl]), ?_⟩
    rw [h]; simp
  · refine ⟨noPoll (by rw [h]; simp [cp]), ?_⟩
    rw [h]; simp [nd, Event.isSetup]
  · refine ⟨noPoll (by rw [h]; simp [cp, List.countP_cons, Event.isPoll, Event.isCtrlRead,
      Event.isDispatch, Event.isExecl, terminatedEntry]), ?_⟩
    rw [h]
    simp [nd, Event.isSetup, c1, c2, c3, List.countP_cons, Event.isCtrlRead,
      Event.isDispatch, Event.isExecl, terminatedEntry]
  · refine ⟨noPoll (by rw [h]; simp [cp, List.countP_cons, Event.isPoll, Event.isCtrlRead,
      Event.isDispatch, Event.isExecl, terminatedEntry]), ?_⟩
    rw [h]
    simp [nd, Event.isSetup, c1, c2, c3, List.countP_cons, Event.isCtrlRead,
      Event.isDispatch, Event.isExecl, terminatedEntry]
  · refine ⟨noPoll (by rw [h]; simp [cp, List.countP_cons, Event.isPoll, Event.isCtrlRead,
      Event.isDispatch, Event.isExecl, terminatedEntry]), ?_⟩
    rw [h]
    simp [nd, Event.isSetup, c1, c2, c3, List.countP_cons, Event.isCtrlRead,
      Event.isDispatch, Event.isExecl, terminatedEntry]
  · rcases hl : pollLoop env fuel 0 env.sigterm_startup with ⟨l, x⟩
    rw [hl] at nl
    simp only at nl
    rw [h, hl, leaveLoop_trace]
    constructor
    · intro before e after hsplit he
      have hS : (startupTrace env p).countP Event.isPoll = 0 := by
        simp [startupTrace, cp, List.countP_cons, Event.isPoll, Event.isCtrlRead,
          Event.isDispatch, Event.isExecl]
      have hnot := not_mem_of_countP_zero _ _ hS e (key e he)
      rw [List.append_assoc] at hsplit
      obtain ⟨r, rfl⟩ := append_split_of_not_mem _ _ before after e hnot hsplit
      refine ⟨⟨p, ?_⟩, ?_, ?_, ?_⟩ <;> simp [startupTrace]
    · intro hfail
      exfalso
      cases x <;>
        simp [startupTrace, nd, nl, Event.isSetup, Event.isLoop, terminatedEntry] at hfail

/-- Witness of C4: in the sample run whose status write fails, the loop is not
entered. -/
theorem C4_no_poll_before_status_witness :
    Event.mb_set_fpga_status ⟨true⟩ false ∈ (main envStatusFails 3).trace
      ∧ (main envStatusFails 3).trace.countP Event.isCtrlRead = 0
      ∧ (main envStatusFails 3).trace.countP Event.isDispatch = 0
      ∧ (main envStatusFails 3).trace.countP Event.isExecl = 0
      ∧ Event.syslog Priority.LOG_NOTICE "Started" [] ∉ (main envStatusFails 3).trace :=
  ⟨by decide,
    (C4_no_poll_before_status envStatusFails 3).2 (Or.inr (Or.inr ⟨⟨true⟩, by decide⟩))⟩
/-- C5: after a successful startup and `n` completed poll cycles, when the
control read of the next cycle fails, the run ends at once: the failed read is
followed by the error entry "Could not read FPGA_CTRL", the entry "Terminated"
and `closelog`, and the exit status is 0.  Before the failed read there are
`n` control reads and `n` dispatches, no `execl` and no "Terminated"; so the
failed read is not dispatched, no further read follows, `execl` is not invoked
and "Terminated" is logged once. -/
theorem C5_read_failure_ends_loop (env : Env) (eeprom : String) (n fuel : Nat)
    (hs : StartupSucceeds env eeprom) (hr : ReachesCycle env n)
    (hfail : env.mb_get_fpga_ctrl n = none) (hfuel : n < fuel) :
    ∃ before : List Event,
      main env fuel =
          ⟨before ++ [Event.mb_get_fpga_ctrl none,
              Event.syslog Priority.LOG_ERR "Could not read FPGA_CTRL" [],
              Event.syslog Priority.LOG_NOTICE "Terminated" [], Event.closelog],
            Outcome.exited 0⟩
        ∧ before.countP Event.isCtrlRead = n
        ∧ before.countP Event.isDispatch = n
        ∧ before.countP Event.isExecl = 0
        ∧ before.countP Event.isTerminated = 0
        ∧ (main env fuel).trace.countP Event.isCtrlRead = n + 1
        ∧ (main env fuel).trace.countP Event.isDispatch = n
        ∧ (main env fuel).trace.countP Event.isExecl = 0
        ∧ (main env fuel).trace.countP Event.isTerminated = 1 := by
  obtain ⟨before, b1, b2, -, b4, b5, hrun⟩ := main_reach env eeprom n hs hr
  obtain ⟨m, rfl⟩ : ∃ m, fuel = n + (m + 1) := ⟨fuel - n - 1, by omega⟩
  have hm : main env (n + (m + 1)) =
      ⟨before ++ [Event.mb_get_fpga_ctrl none,
          Event.syslog Priority.LOG_ERR "Could not read FPGA_CTRL" [],
          Event.syslog Priority.LOG_NOTICE "Terminated" [], Event.closelog],
        Outcome.exited 0⟩ := by
    rw [hrun, pollLoop_read_fails env m n hfail]
    simp [leaveLoop, finish, EXIT_SUCCESS]
  refine ⟨before, hm, b1, b2, b4, b5, ?_, ?_, ?_, ?_⟩ <;> rw [hm]
  · simp [List.countP_append, List.countP_cons, b1, Event.isCtrlRead]
  · simp [List.countP_append, List.countP_cons, b2, Event.isDispatch]
  · simp [List.countP_append, List.countP_cons, b4, Event.isExecl]
  · simp [List.countP_append, List.countP_cons, b5, Event.isTerminated, terminatedEntry]

/-- Witness of C5: two completed cycles, then the third control read fails. -/
theorem C5_read_failure_ends_loop_witness :
    ReachesCycle envReadFailsThird 2 ∧
    ∃ before : List Event,
      main envReadFailsThird 5 =
          ⟨before ++ [Event.mb_get_fpga_ctrl none,
              Event.syslog Priority.LOG_ERR "Could not read FPGA_CTRL" [],
              Event.syslog Priority.LOG_NOTICE "Terminated" [], Event.closelog],
            Outcome.exited 0⟩
        ∧ before.countP Event.isCtrlRead = 2
        ∧ before.countP Event.isDispatch = 2
        ∧ before.countP Event.isExecl = 0
        ∧ before.countP Event.isTerminated = 0
        ∧ (main envReadFailsThird 5).trace.countP Event.isCtrlRead = 2 + 1
        ∧ (main envReadFailsThird 5).trace.countP Event.isDispatch = 2
        ∧ (main envReadFailsThird 5).trace.countP Event.isExecl = 0
        ∧ (main envReadFailsThird 5).trace.countP Event.isTerminated = 1 :=
  have hr : ReachesCycle envReadFailsThird 2 :=
    ⟨rfl, fun _ _ _ => rfl, fun i hi => ⟨⟨false⟩, by
      simp [envReadFailsThird, hi], rfl⟩⟩
  ⟨hr, C5_read_failure_ends_loop envReadFailsThird samplePath 2 5
    ⟨⟨rfl, rfl, by decide, rfl, by decide⟩, rfl, rfl, rfl⟩ hr rfl (by decide)⟩

/-- C6: in a poll cycle `k` that is entered with the flag clear and whose
snapshot has `req_shutdown = true`, a `SIGTERM` that arrives during the cycle
does not keep the shutdown command from being invoked in that cycle:
`handle_fpga_ctrl` reaches `execl` whatever the value of the flag, the trace
holds the invocation as part of cycle `k`, and only after it, when `execl`
returns, is the flag honoured (sleep, "Terminated", exit status 0).  The loop
body never reads the flag, so the conclusion is the same in whichever window
of the cycle the signal arrives. -/
theorem C6_signal_does_not_preempt_dispatch (env : Env) (eeprom : String) (k fuel : Nat)
    (c : mb_fpga_ctrl_t) (hs : StartupSucceeds env eeprom) (hr : ReachesCycle env k)
    (hk : env.mb_get_fpga_ctrl k = some c) (hreq : c.req_shutdown = true)
    (_hsig : ∃ w, env.sigterm k w = true) (hfuel : k < fuel) :
    (∀ r t, Event.execl "/sbin/shutdown" ["shutdown", "-h", "now"]
        ∈ (handle_fpga_ctrl r c t).1)
      ∧ ∃ before after : List Event,
        (main env fuel).trace =
            before ++ [Event.mb_get_fpga_ctrl (some c), Event.handle_fpga_ctrl c,
              Event.syslog Priority.LOG_NOTICE "Shutdown requested by MMC" [],
              Event.execl "/sbin/shutdown" ["shutdown", "-h", "now"]] ++ after
          ∧ before.countP Event.isCtrlRead = k
          ∧ before.countP Event.isExecl = 0
          ∧ before.countP Event.isTerminated = 0
          ∧ (env.execl k = none → after = [] ∧ (main env fuel).outcome = Outcome.replaced)
          ∧ (∀ errno, env.execl k = some errno →
              after = [Event.syslog Priority.LOG_ERR "Could not execute shutdown command: %s"
                  [SyslogArg.strerror errno],
                Event.nanosleep 0 250000000,
                Event.syslog Priority.LOG_NOTICE "Terminated" [], Event.closelog]
              ∧ (main env fuel).outcome = Outcome.exited 0) := by
  refine ⟨?_, ?_⟩
  · intro r t
    cases r <;> simp [handle_fpga_ctrl, hreq]
  · obtain ⟨before, b1, -, -, b4, b5, hrun⟩ := main_reach env eeprom k hs hr
    obtain ⟨m, rfl⟩ : ∃ m, fuel = k + (m + 1) := ⟨fuel - k - 1, by omega⟩
    cases hx : env.execl k with
    | none =>
      refine ⟨before, [], ?_, b1, b4, b5, ?_, ?_⟩
      · rw [hrun, pollLoop_replaced env m k c hk hreq hx]
        simp [leaveLoop, shutdownNotice, shutdownCall]
      · intro _
        rw [hrun, pollLoop_replaced env m k c hk hreq hx]
        simp [leaveLoop]
      · intro errno h; simp at h
    | some errno =>
      refine ⟨before, [Event.syslog Priority.LOG_ERR "Could not execute shutdown command: %s"
        [SyslogArg.strerror errno], pollSleep, terminatedEntry, Event.closelog], ?_, b1, b4,
        b5, ?_, ?_⟩
      · rw [hrun, pollLoop_launch_fails env m k c errno hk hreq hx]
        simp [leaveLoop, finish, shutdownNotice, shutdownCall, terminatedEntry]
      · intro h; simp at h
      · intro e2 h
        simp at h
        subst h
        rw [hrun, pollLoop_launch_fails env m k c errno hk hreq hx]
        simp [leaveLoop, finish, pollSleep, terminatedEntry, EXIT_SUCCESS]

/-- Witness of C6: `SIGTERM` arrives during the read of the cycle whose
snapshot requests the shutdown. -/
theorem C6_signal_does_not_preempt_dispatch_witness :
    envSigtermDuringRequest.sigterm 1 Window.read = true
      ∧ ∃ before after : List Event,
        (main envSigtermDuringRequest 3).trace =
            before ++ [Event.mb_get_fpga_ctrl (some ⟨true⟩), Event.handle_fpga_ctrl ⟨true⟩,
              Event.syslog Priority.LOG_NOTICE "Shutdown requested by MMC" [],
              Event.execl "/sbin/shutdown" ["shutdown", "-h", "now"]] ++ after
          ∧ before.countP Event.isCtrlRead = 1 :=
  have hr : ReachesCycle envSigtermDuringRequest 1 :=
    ⟨rfl, fun i hi w => by
        have h0 : i = 0 := by omega
        subst h0
        rfl,
      fun i hi => ⟨⟨false⟩, by
        have h0 : i = 0 := by omega
        subst h0
        rfl, rfl⟩⟩
  have h := (C6_signal_does_not_preempt_dispatch envSigtermDuringRequest samplePath 1 3 ⟨true⟩
    ⟨⟨rfl, rfl, by decide, rfl, by decide⟩, rfl, rfl, rfl⟩ hr rfl rfl
    ⟨Window.read, rfl⟩ (by decide)).2
  ⟨rfl, h.elim fun before h1 => h1.elim fun after h2 => ⟨before, after, h2.1, h2.2.1⟩⟩

/-- C7: when the snapshot of cycle `k` has `req_shutdown = true` and `execl`
returns, `handle_fpga_ctrl` logs the failure and leaves `terminate = true`,
and the run ends without a retry: after the failure entry come one sleep, the
entry "Terminated" and `closelog`, the exit status is 0, and the whole trace
holds `k + 1` control reads and one invocation of `execl`. -/
theorem C7_launch_failure_ends_loop (env : Env) (eeprom : String) (k fuel : Nat)
    (c : mb_fpga_ctrl_t) (errno : Int) (hs : StartupSucceeds env eeprom)
    (hr : ReachesCycle env k) (hk : env.mb_get_fpga_ctrl k = some c)
    (hreq : c.req_shutdown = true) (hx : env.execl k = some errno) (hfuel : k < fuel) :
    (∀ t, handle_fpga_ctrl (env.execl k) c t =
        ([Event.syslog Priority.LOG_NOTICE "Shutdown requested by MMC" [],
          Event.execl "/sbin/shutdown" ["shutdown", "-h", "now"],
          Event.syslog Priority.LOG_ERR "Could not execute shutdown command: %s"
            [SyslogArg.strerror errno]], some true))
      ∧ ∃ before : List Event,
        main env fuel =
            ⟨before ++ [Event.mb_get_fpga_ctrl (some c), Event.handle_fpga_ctrl c,
                Event.syslog Priority.LOG_NOTICE "Shutdown requested by MMC" [],
                Event.execl "/sbin/shutdown" ["shutdown", "-h", "now"],
                Event.syslog Priority.LOG_ERR "Could not execute shutdown command: %s"
                  [SyslogArg.strerror errno],
                Event.nanosleep 0 250000000,
                Event.syslog Priority.LOG_NOTICE "Terminated" [], Event.closelog],
              Outcome.exited 0⟩
          ∧ before.countP Event.isCtrlRead = k
          ∧ before.countP Event.isExecl = 0
          ∧ before.countP Event.isTerminated = 0
          ∧ (main env fuel).trace.countP Event.isCtrlRead = k + 1
          ∧ (main env fuel).trace.countP Event.isExecl = 1
          ∧ (main env fuel).trace.countP Event.isTerminated = 1 := by
  refine ⟨?_, ?_⟩
  · intro t
    simp [handle_fpga_ctrl, hreq, hx]
  · obtain ⟨before, b1, -, -, b4, b5, hrun⟩ := main_reach env eeprom k hs hr
    obtain ⟨m, rfl⟩ : ∃ m, fuel = k + (m + 1) := ⟨fuel - k - 1, by omega⟩
    have hm : main env (k + (m + 1)) =
        ⟨before ++ [Event.mb_get_fpga_ctrl (some c), Event.handle_fpga_ctrl c,
            Event.syslog Priority.LOG_NOTICE "Shutdown requested by MMC" [],
            Event.execl "/sbin/shutdown" ["shutdown", "-h", "now"],
            Event.syslog Priority.LOG_ERR "Could not execute shutdown command: %s"
              [SyslogArg.strerror errno],
            Event.nanosleep 0 250000000,
            Event.syslog Priority.LOG_NOTICE "Terminated" [], Event.closelog],
          Outcome.exited 0⟩ := by
      rw [hrun, pollLoop_launch_fails env m k c errno hk hreq hx]
      simp [leaveLoop, finish, shutdownNotice, shutdownCall, pollSleep, terminatedEntry,
        EXIT_SUCCESS]
    refine ⟨before, hm, b1, b4, b5, ?_, ?_, ?_⟩ <;> rw [hm]
    · simp [List.countP_append, List.countP_cons, b1, Event.isCtrlRead]
    · simp [List.countP_append, List.countP_cons, b4, Event.isExecl]
    · simp [List.countP_append, List.countP_cons, b5, Event.isTerminated, terminatedEntry]

/-- Witness of C7: the first snapshot requests the shutdown and `execl` fails
with `errno = 2`. -/
theorem C7_launch_failure_ends_loop_witness :
    (main envLaunchFails 4).outcome = Outcome.exited 0
      ∧ (main envLaunchFails 4).trace.countP Event.isCtrlRead = 0 + 1
      ∧ (main envLaunchFails 4).trace.countP Event.isExecl = 1
      ∧ (main envLaunchFails 4).trace.countP Event.isTerminated = 1 :=
  have h := (C7_launch_failure_ends_loop envLaunchFails samplePath 0 4 ⟨true⟩ 2
    ⟨⟨rfl, rfl, by decide, rfl, by decide⟩, rfl, rfl, rfl⟩
    ⟨rfl, fun _ hi _ => absurd hi (Nat.not_lt_zero _), fun _ hi => absurd hi (Nat.not_lt_zero _)⟩
    rfl rfl rfl (by decide)).2
  h.elim fun _ h1 =>
    ⟨by rw [h1.1], h1.2.2.2.2.1, h1.2.2.2.2.2.1, h1.2.2.2.2.2.2⟩

/-- C8: a run of `main` that is privileged and daemonized ends the same way on
every path.  (1) If the run has ended and the process image was not replaced,
the exit status is 0 and "Terminated" is logged exactly once, as the last log
entry, followed only by `closelog`.  (2) Each of the listed paths does end the
run: `mb_get_eeprom_path` returns NULL, `mb_check_magic` returns false, the
status write fails, `SIGTERM` arrives, a control read fails, or a snapshot
requests the shutdown.  (3) When `mb_get_eeprom_path` returns NULL the log is
"Could not open mailbox", "Terminated"; when `mb_check_magic` returns false it
is "Opened mailbox at %s", "Mailbox not available", "Terminated". -/
theorem C8_uniform_clean_exit (env : Env) (fuel : Nat) (hd : Daemonized env) :
    ((main env fuel).outcome ≠ Outcome.running → (main env fuel).outcome ≠ Outcome.replaced →
        ∃ before : List Event,
          main env fuel =
              ⟨before ++ [Event.syslog Priority.LOG_NOTICE "Terminated" [], Event.closelog],
                Outcome.exited 0⟩
            ∧ before.countP Event.isTerminated = 0
            ∧ (main env fuel).trace.countP Event.isTerminated = 1
            ∧ (main env fuel).trace.filter Event.isSyslog
                = before.filter Event.isSyslog
                  ++ [Event.syslog Priority.LOG_NOTICE "Terminated" []])
      ∧ ((env.mb_get_eeprom_path = none ∨ env.mb_check_magic = false
            ∨ env.mb_set_fpga_status = false ∨ env.sigterm_startup = true
            ∨ ∃ n, n < fuel ∧ (env.mb_get_fpga_ctrl n = none
                ∨ (∃ c, env.mb_get_fpga_ctrl n = some c ∧ c.req_shutdown = true)
                ∨ ∃ w, env.sigterm n w = true)) →
          (main env fuel).outcome ≠ Outcome.running)
      ∧ (env.mb_get_eeprom_path = none →
          (main env fuel).outcome = Outcome.exited 0
            ∧ (main env fuel).trace.filter Event.isSyslog
              = [Event.syslog Priority.LOG_ERR "Could not open mailbox" [],
                 Event.syslog Priority.LOG_NOTICE "Terminated" []])
      ∧ (∀ eeprom, env.mb_get_eeprom_path = some eeprom → env.mb_check_magic = false →
          (main env fuel).outcome = Outcome.exited 0
            ∧ (main env fuel).trace.filter Event.isSyslog
              = [Event.syslog Priority.LOG_NOTICE "Opened mailbox at %s" [SyslogArg.str eeprom],
                 Event.syslog Priority.LOG_ERR "Mailbox not available" [],
                 Event.syslog Priority.LOG_NOTICE "Terminated" []]) := by
  have he := hd.1
  have hr := daemonize_returns env hd
  have ct := daemonize_no_terminated env
  have fs := daemonize_no_syslog env
  cases hp : env.mb_get_eeprom_path with
  | none =>
    have hm := main_locate_fails env fuel he hr hp
    refine ⟨fun _ _ => ⟨(daemonize env).1 ++ [Event.mb_get_eeprom_path none,
      Event.syslog Priority.LOG_ERR "Could not open mailbox" []],
      by rw [hm]; simp [terminatedEntry], ?_, ?_, ?_⟩, ?_, ?_, ?_⟩
    · simp [ct, List.countP_cons, Event.isTerminated, terminatedEntry]
    · rw [hm]
      simp [ct, List.countP_cons, Event.isTerminated, terminatedEntry]
    · rw [hm]
      simp [fs, List.filter_cons, Event.isSyslog, terminatedEntry]
    · intro _; rw [hm]; simp
    · intro _; rw [hm]
      simp [fs, List.filter_cons, Event.isSyslog, terminatedEntry]
    · intro eeprom h; simp at h
  | some p =>
    cases hmg : env.mb_check_magic with
    | false =>
      have hm := main_verify_fails env fuel he hr p hp hmg
      refine ⟨fun _ _ => ⟨(daemonize env).1 ++ [Event.mb_get_eeprom_path (some p),
        Event.syslog Priority.LOG_NOTICE "Opened mailbox at %s" [SyslogArg.str p],
        Event.mb_check_magic false,
        Event.syslog Priority.LOG_ERR "Mailbox not available" []],
        by rw [hm]; simp [terminatedEntry], ?_, ?_, ?_⟩, ?_, ?_, ?_⟩
      · simp [ct, List.countP_cons, Event.isTerminated, terminatedEntry]
      · rw [hm]
        simp [ct, List.countP_cons, Event.isTerminated, terminatedEntry]
      · rw [hm]
        simp [fs, List.filter_cons, Event.isSyslog, terminatedEntry]
      · intro _; rw [hm]; simp
      · intro h; simp at h
      · intro eeprom h _
        simp at h
        subst h
        rw [hm]
        simp [fs, List.filter_cons, Event.isSyslog, terminatedEntry]
    | true =>
      cases hst : env.mb_set_fpga_status with
      | false =>
        have hm := main_status_fails env fuel he hr p hp hmg hst
        refine ⟨fun _ _ => ⟨(daemonize env).1 ++ [Event.mb_get_eeprom_path (some p),
          Event.syslog Priority.LOG_NOTICE "Opened mailbox at %s" [SyslogArg.str p],
          Event.mb_check_magic true,
          Event.mb_set_fpga_status { app_startup_finished := true } false,
          Event.syslog Priority.LOG_ERR "Could not set FPGA status" []],
          by rw [hm]; simp [terminatedEntry], ?_, ?_, ?_⟩, ?_, ?_, ?_⟩
        · simp [ct, List.countP_cons, Event.isTerminated, terminatedEntry]
        · rw [hm]
          simp [ct, List.countP_cons, Event.isTerminated, terminatedEntry]
        · rw [hm]
          simp [fs, List.filter_cons, Event.isSyslog, terminatedEntry]
        · intro _; rw [hm]; simp
        · intro h; simp at h
        · intro eeprom _ h; simp at h
      | true =>
        have hm := main_enters_loop env fuel he hr p hp hmg hst
        have cl := pollLoop_no_terminated env fuel 0 env.sigterm_startup
        have cs := (startupTrace_counts env p).2.2.2.2.1
        have hend := pollLoop_ends env fuel 0 env.sigterm_startup
        rcases hl : pollLoop env fuel 0 env.sigterm_startup with ⟨l, x⟩
        rw [hl] at hm cl hend
        simp only at cl hend
        refine ⟨?_, ?_, ?_, ?_⟩
        · intro h1 h2
          cases x
          · have hm2 : main env fuel =
                ⟨(startupTrace env p ++ l)
                    ++ [Event.syslog Priority.LOG_NOTICE "Terminated" [], Event.closelog],
                  Outcome.exited 0⟩ := by
              rw [hm]; simp [leaveLoop, finish, EXIT_SUCCESS]
            refine ⟨_, hm2, ?_, ?_, ?_⟩
            · simp [List.countP_append, cs, cl]
            · rw [hm2]
              simp [List.countP_append, cs, cl, List.countP_cons, Event.isTerminated,
                terminatedEntry]
            · rw [hm2]
              simp [List.filter_cons, Event.isSyslog]
          · rw [hm] at h2; simp [leaveLoop] at h2
          · rw [hm] at h1; simp [leaveLoop] at h1
        · intro hpath
          have hx : x ≠ LoopExit.running := by
            apply hend
            rcases hpath with h | h | h | h | ⟨n, hn, h⟩
            · simp at h
            · simp at h
            · simp at h
            · exact Or.inl h
            · exact Or.inr ⟨n, hn, by simpa using h⟩
          rw [hm]
          cases x
          · simp [leaveLoop, finish]
          · simp [leaveLoop]
          · exact absurd rfl hx
        · intro h; simp at h
        · intro eeprom _ h; simp at h

/-- Witness of C8: the sample run in which `mb_check_magic` returns false. -/
theorem C8_uniform_clean_exit_witness :
    Daemonized envVerifyFails
      ∧ (main envVerifyFails 3).outcome = Outcome.exited 0
      ∧ (main envVerifyFails 3).trace.filter Event.isSyslog
          = [Event.syslog Priority.LOG_NOTICE "Opened mailbox at %s" [SyslogArg.str samplePath],
             Event.syslog Priority.LOG_ERR "Mailbox not available" [],
             Event.syslog Priority.LOG_NOTICE "Terminated" []] :=
  ⟨⟨rfl, rfl, by decide, rfl, by decide⟩,
    (C8_uniform_clean_exit envVerifyFails 3 ⟨rfl, rfl, by decide, rfl, by decide⟩).2.2.2
      samplePath rfl rfl⟩

/-- C9: when the effective user is not the superuser, `main` only prints the
diagnostic to standard error and returns status 1: the trace holds that one
event, so `daemonize` is not run, no mailbox function is called, `execl` is
not invoked and nothing is logged. -/
theorem C9_unprivileged_refused (env : Env) (fuel : Nat) (h : env.geteuid ≠ 0) :
    main env fuel =
        ⟨[Event.fprintf_stderr "mmcctrld: needs to be launched with root privileges\r\n"],
          Outcome.exited 1⟩
      ∧ (main env fuel).trace.countP Event.isSetup = 0
      ∧ (main env fuel).trace.countP Event.isMailbox = 0
      ∧ (main env fuel).trace.countP Event.isExecl = 0
      ∧ (main env fuel).trace.countP Event.isSyslog = 0 := by
  rw [main_unprivileged env fuel h]
  simp [Event.isSetup, Event.isMailbox, Event.isExecl, Event.isSyslog]

/-- Witness of C9: the sample environment with effective user 1000. -/
theorem C9_unprivileged_refused_witness :
    main envUnprivileged 3 =
        ⟨[Event.fprintf_stderr "mmcctrld: needs to be launched with root privileges\r\n"],
          Outcome.exited 1⟩ :=
  (C9_unprivileged_refused envUnprivileged 3 (by decide)).1

/-- C10, counterexample: in the run where the first snapshot requests the
shutdown and `execl` fails, `handle_fpga_ctrl` returns with `terminate = true`,
and still `nanosleep` is called after the dispatch and before "Terminated" is
logged. -/
theorem C10_counterexample :
    (handle_fpga_ctrl (envLaunchFails.execl 0) ⟨true⟩ false).2 = some true
      ∧ main envLaunchFails 1 =
        ⟨[Event.fork 0, Event.setsid 4711,
          Event.sigaction Signal.SIGCHLD Handler.SIG_IGN,
          Event.sigaction Signal.SIGHUP Handler.SIG_IGN,
          Event.sigaction Signal.SIGTERM Handler.sigterm_handler,
          Event.fork 0, Event.umask 0, Event.chdir "/" 0,
          Event.close 2, Event.close 1, Event.close 0, Event.openlog "mmcctrld",
          Event.mb_get_eeprom_path (some "/sys/bus/i2c/devices/0-0050/eeprom"),
          Event.syslog Priority.LOG_NOTICE "Opened mailbox at %s"
            [SyslogArg.str "/sys/bus/i2c/devices/0-0050/eeprom"],
          Event.mb_check_magic true,
          Event.mb_set_fpga_status ⟨true⟩ true,
          Event.syslog Priority.LOG_NOTICE "Started" [],
          Event.mb_get_fpga_ctrl (some ⟨true⟩),
          Event.handle_fpga_ctrl ⟨true⟩,
          Event.syslog Priority.LOG_NOTICE "Shutdown requested by MMC" [],
          Event.execl "/sbin/shutdown" ["shutdown", "-h", "now"],
          Event.syslog Priority.LOG_ERR "Could not execute shutdown command: %s"
            [SyslogArg.strerror 2],
          Event.nanosleep 0 250000000,
          Event.syslog Priority.LOG_NOTICE "Terminated" [],
          Event.closelog],
         Outcome.exited 0⟩ := by
  constructor <;> rfl

/-- C10, amended: in every poll cycle whose dispatch returns, the loop calls
`nanosleep` for 250 ms right after the dispatch, whatever the value of the
flag, and the flag is tested only after the sleep: if it is set by then (by a
failed launch of the shutdown command or by `SIGTERM` during the cycle) the
next events are "Terminated" and `closelog` and the exit status is 0;
otherwise the next event is the control read of the following cycle. -/
theorem C10_sleep_before_flag_check (env : Env) (eeprom : String) (k fuel : Nat)
    (c : mb_fpga_ctrl_t) (hs : StartupSucceeds env eeprom) (hr : ReachesCycle env k)
    (hk : env.mb_get_fpga_ctrl k = some c)
    (hret : c.req_shutdown = false ∨ env.execl k ≠ none) (hfuel : k < fuel) :
    ∃ before after : List Event,
      (main env fuel).trace =
          before ++ (Event.mb_get_fpga_ctrl (some c) :: Event.handle_fpga_ctrl c ::
            (handle_fpga_ctrl (env.execl k) c
              (env.sigterm k Window.read || env.sigterm k Window.dispatch)).1)
            ++ Event.nanosleep 0 250000000 :: after
        ∧ before.countP Event.isCtrlRead = k
        ∧ before.countP Event.isSleep = k
        ∧ (handle_fpga_ctrl (env.execl k) c
              (env.sigterm k Window.read || env.sigterm k Window.dispatch)).1.countP
            Event.isSleep = 0
        ∧ ((c.req_shutdown = true ∨ ∃ w, env.sigterm k w = true) →
            after = [Event.syslog Priority.LOG_NOTICE "Terminated" [], Event.closelog]
              ∧ (main env fuel).outcome = Outcome.exited 0)
        ∧ (c.req_shutdown = false → (∀ w, env.sigterm k w = false) → k + 1 < fuel →
            ∃ rest, after = Event.mb_get_fpga_ctrl (env.mb_get_fpga_ctrl (k + 1)) :: rest) := by
  obtain ⟨before, b1, -, b3, -, -, hrun⟩ := main_reach env eeprom k hs hr
  obtain ⟨m, rfl⟩ : ∃ m, fuel = k + (m + 1) := ⟨fuel - k - 1, by omega⟩
  cases hreq : c.req_shutdown
  · rcases hl : pollLoop env m (k + 1) (env.sigterm k Window.read
      || env.sigterm k Window.dispatch || env.sigterm k Window.sleep) with ⟨l, x⟩
    have hm : main env (k + (m + 1)) = leaveLoop before
        (Event.mb_get_fpga_ctrl (some c) :: Event.handle_fpga_ctrl c :: pollSleep :: l, x) := by
      rw [hrun, pollLoop_quiet_step env m k c hk hreq, hl]
    refine ⟨before, l ++ (if x = LoopExit.finish then [terminatedEntry, Event.closelog] else []),
      ?_, b1, b3, ?_, ?_, ?_⟩
    · rw [hm, leaveLoop_trace]
      simp [handle_fpga_ctrl, hreq, pollSleep]
    · simp [handle_fpga_ctrl, hreq]
    · intro h
      have hflag : (env.sigterm k Window.read || env.sigterm k Window.dispatch
          || env.sigterm k Window.sleep) = true := by
        rcases h with h | ⟨w, hw⟩
        · simp at h
        · cases w <;> simp [hw]
      rw [hflag, pollLoop_flag] at hl
      simp only [Prod.mk.injEq] at hl
      obtain ⟨rfl, rfl⟩ := hl
      rw [hm]
      simp [leaveLoop, finish, terminatedEntry, EXIT_SUCCESS]
    · intro _ hw hlt
      obtain ⟨m2, rfl⟩ : ∃ m2, m = m2 + 1 := ⟨m - 1, by omega⟩
      rw [hw Window.read, hw Window.dispatch, hw Window.sleep] at hl
      obtain ⟨rest, hrest⟩ := pollLoop_head env m2 (k + 1)
      simp only [Bool.or_self] at hl
      rw [hl] at hrest
      simp only at hrest
      exact ⟨rest ++ (if x = LoopExit.finish then [terminatedEntry, Event.closelog] else []),
        by rw [hrest]; rfl⟩
  · rcases hret with h | h
    · rw [hreq] at h; simp at h
    · cases hx : env.execl k with
      | none => exact absurd hx h
      | some errno =>
        have hm : main env (k + (m + 1)) = leaveLoop before
            ([Event.mb_get_fpga_ctrl (some c), Event.handle_fpga_ctrl c, shutdownNotice,
              shutdownCall,
              Event.syslog Priority.LOG_ERR "Could not execute shutdown command: %s"
                [SyslogArg.strerror errno],
              pollSleep], LoopExit.finish) := by
          rw [hrun, pollLoop_launch_fails env m k c errno hk hreq hx]
        refine ⟨before, [terminatedEntry, Event.closelog], ?_, b1, b3, ?_, ?_, ?_⟩
        · rw [hm, leaveLoop_trace]
          simp [handle_fpga_ctrl, hreq, pollSleep, shutdownNotice, shutdownCall]
        · simp [handle_fpga_ctrl, hreq, List.countP_cons, Event.isSleep]
        · intro _
          rw [hm]
          simp [leaveLoop, finish, terminatedEntry, EXIT_SUCCESS]
        · intro h2; simp at h2

/-- Witness of C10, amended: the run in which the launch of the shutdown
command fails in the first cycle. -/
theorem C10_sleep_before_flag_check_witness :
    ∃ before after : List Event,
      (main envLaunchFails 2).trace =
          before ++ (Event.mb_get_fpga_ctrl (some ⟨true⟩) :: Event.handle_fpga_ctrl ⟨true⟩ ::
            (handle_fpga_ctrl (envLaunchFails.execl 0) ⟨true⟩
              (envLaunchFails.sigterm 0 Window.read
                || envLaunchFails.sigterm 0 Window.dispatch)).1)
            ++ Event.nanosleep 0 250000000 :: after
        ∧ after = [Event.syslog Priority.LOG_NOTICE "Terminated" [], Event.closelog] :=
  (C10_sleep_before_flag_check envLaunchFails samplePath 0 2 ⟨true⟩
    ⟨⟨rfl, rfl, by decide, rfl, by decide⟩, rfl, rfl, rfl⟩
    ⟨rfl, fun _ hi _ => absurd hi (Nat.not_lt_zero _), fun _ hi => absurd hi (Nat.not_lt_zero _)⟩
    rfl (Or.inr (by decide)) (by decide)).elim fun before h1 => h1.elim fun after h2 =>
      ⟨before, after, h2.1, (h2.2.2.2.2.1 (Or.inl rfl)).1⟩

end Mmcctrld
